import Mathlib

set_option maxRecDepth 8192

/-!
Shallow embedding of the orbit ingestion core: STIX schema validation
(`src/orbit/schemas/base.py`, `src/orbit/schemas/stix.py`), the adapter
registry (`src/orbit/adapters/__init__.py`), and the ingestion pipeline
entrypoint (`src/orbit/ingestion/pipeline.py`).

Python exceptions are modelled with `Except String`: a raised
`ValidationError` / `ValueError` becomes `Except.error` carrying the
exception's message, and a normal return becomes `Except.ok`.
-/

deriving instance DecidableEq for Except

/-- Character class `[a-z]` of the STIX ID regex. -/
def isLowerAlpha (c : Char) : Bool := 'a' ≤ c && c ≤ 'z'

/-- Character class `[a-z0-9-]` of the STIX ID regex. -/
def isLowerAlnumHyphen (c : Char) : Bool :=
  isLowerAlpha c || ('0' ≤ c && c ≤ '9') || c = '-'

/-- Character class `[0-9a-f]` of the STIX ID regex. -/
def isHexLower (c : Char) : Bool :=
  ('0' ≤ c && c ≤ '9') || ('a' ≤ c && c ≤ 'f')

/-- Consume exactly `n` lowercase-hex characters from the front of the list,
returning the remainder; `none` when fewer than `n` such characters lead. -/
def hexRun : Nat → List Char → Option (List Char)
  | 0, rest => some rest
  | _ + 1, [] => none
  | n + 1, c :: rest => if isHexLower c then hexRun n rest else none

/-- Consume one literal hyphen from the front of the list. -/
def expectHyphen (u : List Char) : Option (List Char) :=
  match u with
  | c :: rest => if c = '-' then some rest else none
  | [] => none

/-- Matcher for the UUID tail of `STIX_ID_PATTERN`
(`src/orbit/schemas/stix.py`): five lowercase-hex groups of sizes
8, 4, 4, 4, 12 separated by hyphens. -/
def uuidTail (u : List Char) : Option (List Char) :=
  (hexRun 8 u).bind fun r1 =>
    (expectHyphen r1).bind fun r2 =>
      (hexRun 4 r2).bind fun r3 =>
        (expectHyphen r3).bind fun r4 =>
          (hexRun 4 r4).bind fun r5 =>
            (expectHyphen r5).bind fun r6 =>
              (hexRun 4 r6).bind fun r7 =>
                (expectHyphen r7).bind fun r8 =>
                  hexRun 12 r8

/-- The list is exactly a canonical 8-4-4-4-12 lowercase-hex UUID. -/
def isUuidList (u : List Char) : Bool := uuidTail u == some []

/-- The `[a-z][a-z0-9-]+` part of `STIX_ID_PATTERN`: a lowercase letter
followed by at least one lowercase-alnum-or-hyphen character. -/
def prefixOkList (p : List Char) : Bool :=
  match p with
  | [] => false
  | c :: rest => isLowerAlpha c && !rest.isEmpty && rest.all isLowerAlnumHyphen

/-- The end-of-string case of `STIX_ID_PATTERN` from
`src/orbit/schemas/stix.py`: the regex `[a-z][a-z0-9-]+--` followed by an
8-4-4-4-12 lowercase-hex UUID, matched against the whole list.  Because
the UUID tail together with the double hyphen always covers the last 38
characters, such a match exists exactly when the split at `length - 38`
works, which is what this function checks; the equivalence with the regex
language read declaratively is proved below (`stixIdCore_iff_grammar`). -/
def stixIdCore (cs : List Char) : Bool :=
  let n := cs.length
  decide (40 ≤ n) && prefixOkList (cs.take (n - 38)) &&
    ((cs.drop (n - 38)).take 2 == ['-', '-']) && isUuidList (cs.drop (n - 36))

/-- `STIX_ID_PATTERN.match` from `src/orbit/schemas/stix.py`.  Python's
end anchor without MULTILINE matches at the end of the string or just
before a single trailing newline, so the pattern accepts the core
language and also the core followed by one final newline character. -/
def isStixIdList (cs : List Char) : Bool :=
  stixIdCore cs || (cs.getLast? == some '\n' && stixIdCore cs.dropLast)

/-- String-level wrapper for `STIX_ID_PATTERN.match`, with Python's
trailing-newline end-anchor semantics. -/
def isStixId (s : String) : Bool := isStixIdList s.data

/-- The characters before the first occurrence of a double hyphen (the whole
list when none occurs): the list-level core of Python `s.split("--")[0]`. -/
def beforeDoubleHyphen : List Char → List Char
  | [] => []
  | [c] => [c]
  | c :: c2 :: rest =>
    if c = '-' && c2 = '-' then [] else c :: beforeDoubleHyphen (c2 :: rest)

/-- Python `self.id.split("--")[0]` from `STIXObject.validate`. -/
def idTypePart (s : String) : String := String.mk (beforeDoubleHyphen s.data)

/-- `ATTACK_OBJECT_TYPES` from `src/orbit/schemas/stix.py`, listed in
sorted order so that `String.intercalate` below reproduces Python's
`", ".join(sorted(ATTACK_OBJECT_TYPES))`. -/
def ATTACK_OBJECT_TYPES : List String :=
  ["attack-pattern", "campaign", "course-of-action", "identity",
   "intrusion-set", "malware", "marking-definition", "relationship",
   "tool", "x-mitre-data-component", "x-mitre-data-source",
   "x-mitre-matrix", "x-mitre-tactic"]

/-- Python `", ".join(sorted(ATTACK_OBJECT_TYPES))`. -/
def knownTypesJoined : String := String.intercalate ", " ATTACK_OBJECT_TYPES

/-- `STIXObject` from `src/orbit/schemas/stix.py` (its `BaseNode` part
inlined: `id` and `type` fields). -/
structure STIXObject where
  id : String
  type : String
  created : Option String := none
  modified : Option String := none
  spec_version : Option String := none
deriving DecidableEq

/-- `BaseNode.validate` from `src/orbit/schemas/base.py`, over the two
fields it reads (Python `not s` on a string is emptiness). -/
def baseNodeValidate (id type : String) : Except String Unit :=
  if id = "" then .error "Node ID cannot be empty"
  else if type = "" then .error "Node type cannot be empty"
  else .ok ()

/-- `STIXObject.validate` from `src/orbit/schemas/stix.py`: the
`super().validate()` call followed by ID-format, ID-prefix/type and
known-type checks, each raising on first failure. -/
def STIXObject.validate (n : STIXObject) : Except String Unit :=
  match baseNodeValidate n.id n.type with
  | .error e => .error e
  | .ok _ =>
    if !(isStixId n.id) then
      .error ("Invalid STIX ID format: " ++ n.id ++ ". Expected pattern: <type>--<uuid>")
    else if idTypePart n.id ≠ n.type then
      .error ("STIX ID type mismatch: ID has '" ++ idTypePart n.id ++
        "', but type field is '" ++ n.type ++ "'")
    else if !(ATTACK_OBJECT_TYPES.contains n.type) then
      .error ("Unknown STIX type: " ++ n.type ++ ". Known types: " ++ knownTypesJoined)
    else .ok ()

/-- `BaseEdge` from `src/orbit/schemas/base.py`. -/
structure BaseEdge where
  source_ref : String
  target_ref : String
  relationship_type : String
deriving DecidableEq

/-- `BaseEdge.validate` from `src/orbit/schemas/base.py`, over the three
fields it reads (so that `STIXRelationship.validate` can reuse it for its
`super().validate()` call). -/
def baseEdgeValidate (source_ref target_ref relationship_type : String) :
    Except String Unit :=
  if source_ref = "" then .error "Edge source_ref cannot be empty"
  else if target_ref = "" then .error "Edge target_ref cannot be empty"
  else if relationship_type = "" then .error "Edge relationship_type cannot be empty"
  else if source_ref = target_ref then
    .error ("Self-referential edge not allowed: " ++ source_ref)
  else .ok ()

/-- `BaseEdge.validate` applied to a `BaseEdge` value. -/
def BaseEdge.validate (e : BaseEdge) : Except String Unit :=
  baseEdgeValidate e.source_ref e.target_ref e.relationship_type

/-- `STIXRelationship` from `src/orbit/schemas/stix.py` (its `BaseEdge`
part inlined; `type` defaults to `"relationship"`, `id` to Python `None`). -/
structure STIXRelationship where
  source_ref : String
  target_ref : String
  relationship_type : String
  id : Option String := none
  type : String := "relationship"
deriving DecidableEq

/-- `STIXRelationship.validate` from `src/orbit/schemas/stix.py`: the
`super().validate()` call, the `type == "relationship"` literal check and
the two ref-grammar checks; the relationship's own `id` is never read. -/
def STIXRelationship.validate (r : STIXRelationship) : Except String Unit :=
  match baseEdgeValidate r.source_ref r.target_ref r.relationship_type with
  | .error e => .error e
  | .ok _ =>
    if r.type ≠ "relationship" then
      .error ("STIX relationship type must be 'relationship', got '" ++ r.type ++ "'")
    else if !(isStixId r.source_ref) then
      .error ("Invalid source_ref STIX ID: " ++ r.source_ref)
    else if !(isStixId r.target_ref) then
      .error ("Invalid target_ref STIX ID: " ++ r.target_ref)
    else .ok ()

/-- A raw STIX dictionary as `validate_stix_object` reads it.  Each field
is `none` when the key is absent.  The `id` key's value is kept as
`Option (Option String)`: present-with-Python-`None` is `some none`.  The
ref and type values are kept as strings (for the node branch an
absent-or-`None` id behaves exactly like `""` in `BaseNode.validate`'s
falsiness check, so the node constructor below maps it to `""`). -/
structure RawObject where
  type? : Option String := none
  id? : Option (Option String) := none
  source_ref? : Option String := none
  target_ref? : Option String := none
  relationship_type? : Option String := none
  created? : Option String := none
  modified? : Option String := none
  spec_version? : Option String := none
deriving DecidableEq

/-- `validate_stix_object` from `src/orbit/schemas/stix.py`: key-presence
checks, the relationship/object split on `obj["type"]`, construction with
`obj.get(..., "")` defaults, and the constructed value's `validate` call. -/
def validate_stix_object (obj : RawObject) :
    Except String (STIXObject ⊕ STIXRelationship) :=
  match obj.type? with
  | none => .error "STIX object missing 'type' field"
  | some t =>
    match obj.id? with
    | none => .error "STIX object missing 'id' field"
    | some rawId =>
      if t = "relationship" then
        let rel : STIXRelationship :=
          { source_ref := obj.source_ref?.getD ""
            target_ref := obj.target_ref?.getD ""
            relationship_type := obj.relationship_type?.getD ""
            id := rawId }
        match rel.validate with
        | .error e => .error e
        | .ok _ => .ok (.inr rel)
      else
        let node : STIXObject :=
          { id := rawId.getD ""
            type := t
            created := obj.created?
            modified := obj.modified?
            spec_version := obj.spec_version? }
        match node.validate with
        | .error e => .error e
        | .ok _ => .ok (.inl node)

/-- The two adapter classes registered in `src/orbit/adapters/__init__.py`. -/
inductive Adapter where
  | attack
  | d3fend
deriving DecidableEq

/-- The `ADAPTERS` registry dict, in insertion order. -/
def ADAPTERS : List (String × Adapter) :=
  [("attack", Adapter.attack), ("d3fend", Adapter.d3fend)]

/-- `get_adapter` from `src/orbit/adapters/__init__.py`: unknown sources
raise a `ValueError` naming the available registry keys. -/
def get_adapter (source : String) : Except String Adapter :=
  match ADAPTERS.lookup source with
  | none =>
    .error ("Unknown source: " ++ source ++ ". Available: " ++
      String.intercalate ", " (ADAPTERS.map Prod.fst))
  | some a => .ok a

/-- A raw ATT&CK STIX bundle as `AttackAdapter.normalize` reads it:
only the presence and value of the `objects` key matter. -/
structure StixBundle where
  objects? : Option (List RawObject) := none
deriving DecidableEq

/-- `AttackAdapter.normalize` from `src/orbit/adapters/attack.py`. -/
def attackNormalize (raw : StixBundle) : Except String (List RawObject) :=
  match raw.objects? with
  | none => .error "Invalid STIX bundle: missing 'objects' field"
  | some objs => .ok objs

/-- The `data_path` value of `IngestConfig` (a `pathlib.Path`), kept as
its textual form; the embedding does not model `Path` normalization. -/
structure DataPath where
  path : String
deriving DecidableEq

/-- Python `str(config.data_path)` as used by `ingest`. -/
def DataPath.toStr (p : DataPath) : String := p.path

/-- `IngestConfig` from `src/orbit/ingestion/pipeline.py`. -/
structure IngestConfig where
  source : String
  data_path : DataPath
  validate : Bool := true
  fail_on_invalid : Bool := true
deriving DecidableEq

/-- `IngestResult` from `src/orbit/ingestion/pipeline.py`; `metadata` is a
string-keyed dict whose values in this program are strings. -/
structure IngestResult where
  objects : List RawObject
  errors : List String := []
  metadata : List (String × String) := []
deriving DecidableEq

/-- `IngestResult.is_valid`: `len(self.errors) == 0`. -/
def IngestResult.is_valid (r : IngestResult) : Bool := r.errors.length == 0

/-- `IngestResult.object_count`: `len(self.objects)`. -/
def IngestResult.object_count (r : IngestResult) : Nat := r.objects.length

/-- A model of the file contents reachable from a run: a map from path
text to the data stored there. -/
def FileSystem : Type := String → Option String

/-- `ingest` from `src/orbit/ingestion/pipeline.py`: the body is a stub
that returns a fixed `IngestResult` recording only the config's source and
path; no adapter is resolved and no data is read. -/
def ingest (config : IngestConfig) : IngestResult :=
  { objects := []
    errors := ["Pipeline not yet implemented"]
    metadata := [("source", config.source), ("path", config.data_path.toStr)] }

/-- One pipeline run with the ambient file contents made explicit; the
current `ingest` body never consults them. -/
def ingestRun (config : IngestConfig) (_fs : FileSystem) : IngestResult :=
  ingest config

/-- The spec's wording of the UUID body: five lowercase-hex groups of
sizes 8, 4, 4, 4 and 12, joined by single hyphens. -/
def UuidShape (u : List Char) : Prop :=
  ∃ a b c d e : List Char,
    u = a ++ '-' :: b ++ '-' :: c ++ '-' :: d ++ '-' :: e ∧
    a.length = 8 ∧ b.length = 4 ∧ c.length = 4 ∧ d.length = 4 ∧ e.length = 12 ∧
    a.all isHexLower = true ∧ b.all isHexLower = true ∧ c.all isHexLower = true ∧
    d.all isHexLower = true ∧ e.all isHexLower = true

/-- The spec's wording of the STIX ID grammar, read as a language: a
lowercase-alnum-hyphen head part beginning with a letter and at least two
characters long, the literal double hyphen, then an 8-4-4-4-12
lowercase-hex UUID.  Deliberately places no constraint on the UUID's
version nibble. -/
def StixIdGrammar (cs : List Char) : Prop :=
  ∃ p u : List Char,
    cs = p ++ '-' :: '-' :: u ∧
    (∃ c q, p = c :: q ∧ isLowerAlpha c = true ∧ q ≠ [] ∧
      q.all isLowerAlnumHyphen = true) ∧
    UuidShape u

/-- The language the pattern accepts under Python's end-anchor semantics:
a grammar string, or a grammar string followed by one trailing newline. -/
def StixIdAccepted (cs : List Char) : Prop :=
  StixIdGrammar cs ∨ ∃ c, cs = c ++ ['\n'] ∧ StixIdGrammar c

/-- `hexRun n` succeeds with remainder `r` exactly when the input starts
with `n` lowercase-hex characters followed by `r`. -/
theorem hexRun_some_iff (n : Nat) (u r : List Char) :
    hexRun n u = some r ↔
      ∃ a, u = a ++ r ∧ a.length = n ∧ a.all isHexLower = true := by
  induction n generalizing u with
  | zero =>
    simp only [hexRun]
    constructor
    · rintro h
      injection h with h
      exact ⟨[], by simp [h.symm]⟩
    · rintro ⟨a, hu, ha, _⟩
      have : a = [] := List.length_eq_zero.mp ha
      subst this
      simp at hu
      simp [hu]
  | succ n ih =>
    cases u with
    | nil =>
      simp only [hexRun]
      constructor
      · intro h; cases h
      · rintro ⟨a, hu, ha, _⟩
        cases a with
        | nil => simp at ha
        | cons c a' => simp at hu
    | cons c rest =>
      by_cases hc : isHexLower c = true
      · simp only [hexRun, hc, if_pos]
        rw [ih]
        constructor
        · rintro ⟨a, hrest, ha, hall⟩
          exact ⟨c :: a, by simp [hrest], by simp [ha], by simp [hall, hc]⟩
        · rintro ⟨a, hu, ha, hall⟩
          cases a with
          | nil => simp at ha
          | cons c' a' =>
            rw [List.cons_append] at hu
            injection hu with h1 h2
            subst h1
            simp only [List.all_cons, Bool.and_eq_true] at hall
            exact ⟨a', h2, by simpa using ha, hall.2⟩
      · simp only [hexRun, hc, if_neg, Bool.false_eq_true, not_false_iff]
        constructor
        · intro h; simp at hc; cases h
        · rintro ⟨a, hu, ha, hall⟩
          cases a with
          | nil => simp at ha
          | cons c' a' =>
            rw [List.cons_append] at hu
            injection hu with h1 h2
            subst h1
            simp only [List.all_cons, Bool.and_eq_true] at hall
            exact absurd hall.1 hc

/-- `expectHyphen` succeeds with remainder `r` exactly when the input is
a hyphen followed by `r`. -/
theorem expectHyphen_some_iff (u r : List Char) :
    expectHyphen u = some r ↔ u = '-' :: r := by
  cases u with
  | nil => simp [expectHyphen]
  | cons c rest =>
    by_cases hc : c = '-'
    · subst hc
      simp [expectHyphen]
    · simp [expectHyphen, hc]

/-- The UUID matcher consumes its whole input exactly on lists of the
declarative 8-4-4-4-12 lowercase-hex shape. -/
theorem uuidTail_some_nil_iff (u : List Char) :
    uuidTail u = some [] ↔ UuidShape u := by
  unfold uuidTail
  simp only [Option.bind_eq_some]
  constructor
  · rintro ⟨r1, h1, r2, h2, r3, h3, r4, h4, r5, h5, r6, h6, r7, h7, r8, h8, h9⟩
    rw [hexRun_some_iff] at h1 h3 h5 h7 h9
    rw [expectHyphen_some_iff] at h2 h4 h6 h8
    obtain ⟨a, ha, hal, hah⟩ := h1
    obtain ⟨b, hb, hbl, hbh⟩ := h3
    obtain ⟨c, hc, hcl, hch⟩ := h5
    obtain ⟨d, hd, hdl, hdh⟩ := h7
    obtain ⟨e, he, hel, heh⟩ := h9
    refine ⟨a, b, c, d, e, ?_, hal, hbl, hcl, hdl, hel, hah, hbh, hch, hdh, heh⟩
    subst ha h2 hb h4 hc h6 hd h8
    simp [he]
  · rintro ⟨a, b, c, d, e, hu, hal, hbl, hcl, hdl, hel, hah, hbh, hch, hdh, heh⟩
    refine ⟨'-' :: b ++ '-' :: c ++ '-' :: d ++ '-' :: e, ?_,
      b ++ '-' :: c ++ '-' :: d ++ '-' :: e, ?_,
      '-' :: c ++ '-' :: d ++ '-' :: e, ?_,
      c ++ '-' :: d ++ '-' :: e, ?_,
      '-' :: d ++ '-' :: e, ?_,
      d ++ '-' :: e, ?_,
      '-' :: e, ?_,
      e, ?_, ?_⟩
    · rw [hexRun_some_iff]; exact ⟨a, by simp [hu], hal, hah⟩
    · rw [expectHyphen_some_iff]; try simp
    · rw [hexRun_some_iff]; exact ⟨b, by simp, hbl, hbh⟩
    · rw [expectHyphen_some_iff]; try simp
    · rw [hexRun_some_iff]; exact ⟨c, by simp, hcl, hch⟩
    · rw [expectHyphen_some_iff]; try simp
    · rw [hexRun_some_iff]; exact ⟨d, by simp, hdl, hdh⟩
    · rw [expectHyphen_some_iff]; try simp
    · rw [hexRun_some_iff]; exact ⟨e, by simp, hel, heh⟩

/-- The head-part matcher accepts exactly the nonempty lists that start
with a lowercase letter and continue with at least one character from the
lowercase-alnum-hyphen class. -/
theorem prefixOkList_iff (p : List Char) :
    prefixOkList p = true ↔
      ∃ c q, p = c :: q ∧ isLowerAlpha c = true ∧ q ≠ [] ∧
        q.all isLowerAlnumHyphen = true := by
  cases p with
  | nil => simp [prefixOkList]
  | cons c q =>
    simp only [prefixOkList, Bool.and_eq_true, Bool.not_eq_true']
    constructor
    · rintro ⟨⟨h1, h2⟩, h3⟩
      exact ⟨c, q, rfl, h1, by simpa using h2, h3⟩
    · rintro ⟨c', q', hp, h1, h2, h3⟩
      injection hp with hc hq
      subst hc hq
      exact ⟨⟨h1, by simpa using h2⟩, h3⟩

/-- A list of the declarative UUID shape has exactly 36 characters. -/
theorem UuidShape.length_eq {u : List Char} (h : UuidShape u) : u.length = 36 := by
  obtain ⟨a, b, c, d, e, hu, hal, hbl, hcl, hdl, hel, -⟩ := h
  subst hu
  simp [hal, hbl, hcl, hdl, hel]

/-- The operational end-of-string matcher recognizes exactly the language
of the declarative grammar. -/
theorem stixIdCore_iff_grammar (cs : List Char) :
    stixIdCore cs = true ↔ StixIdGrammar cs := by
  unfold stixIdCore
  simp only [Bool.and_eq_true, decide_eq_true_eq, beq_iff_eq, isUuidList,
    uuidTail_some_nil_iff, prefixOkList_iff]
  constructor
  · rintro ⟨⟨⟨h40, c, q, hp, hc, hq, hqall⟩, hmid⟩, hu⟩
    refine ⟨cs.take (cs.length - 38), cs.drop (cs.length - 36), ?_,
      ⟨c, q, hp, hc, hq, hqall⟩, hu⟩
    have hsplit : cs = cs.take (cs.length - 38) ++ cs.drop (cs.length - 38) :=
      (List.take_append_drop _ _).symm
    have hdd : (cs.drop (cs.length - 38)).drop 2 = cs.drop (cs.length - 36) := by
      rw [List.drop_drop]
      congr 1
      omega
    have hmid2 : cs.drop (cs.length - 38) =
        '-' :: '-' :: cs.drop (cs.length - 36) := by
      conv_lhs => rw [← List.take_append_drop 2 (cs.drop (cs.length - 38))]
      rw [hmid, hdd]
      rfl
    rw [hmid2] at hsplit
    exact hsplit
  · rintro ⟨p, u, hcs, ⟨c, q, hp, hc, hq, hqall⟩, hu⟩
    have hul : u.length = 36 := hu.length_eq
    have hpl : 2 ≤ p.length := by
      subst hp
      cases q with
      | nil => exact absurd rfl hq
      | cons _ _ => simp
    have hlen : cs.length = p.length + 38 := by
      subst hcs
      simp [hul]
    have h40 : 40 ≤ cs.length := by omega
    have hn38 : cs.length - 38 = p.length := by omega
    have htake : cs.take (cs.length - 38) = p := by
      rw [hn38, hcs, List.take_left]
    have hdrop : cs.drop (cs.length - 38) = '-' :: '-' :: u := by
      rw [hn38, hcs, List.drop_left]
    have hdrop36 : cs.drop (cs.length - 36) = u := by
      have : cs.length - 36 = (p ++ ['-', '-']).length := by simp; omega
      rw [this, hcs]
      have hassoc : p ++ '-' :: '-' :: u = (p ++ ['-', '-']) ++ u := by simp
      rw [hassoc, List.drop_left]
    refine ⟨⟨⟨h40, c, q, by rw [htake, hp], hc, hq, hqall⟩, ?_⟩, ?_⟩
    · rw [hdrop]
      simp
    · rw [hdrop36]
      exact hu

/-- The pattern matcher accepts exactly the grammar strings together with
their single-trailing-newline variants, mirroring Python's end anchor. -/
theorem isStixIdList_iff_accepted (cs : List Char) :
    isStixIdList cs = true ↔ StixIdAccepted cs := by
  unfold isStixIdList StixIdAccepted
  simp only [Bool.or_eq_true, Bool.and_eq_true, beq_iff_eq, stixIdCore_iff_grammar]
  induction cs using List.reverseRecOn with
  | nil =>
    simp
  | append_singleton l a _ =>
    simp only [List.getLast?_concat, List.dropLast_concat, Option.some.injEq]
    constructor
    · rintro (h | ⟨rfl, h⟩)
      · exact Or.inl h
      · exact Or.inr ⟨l, rfl, h⟩
    · rintro (h | ⟨c, hc, h⟩)
      · exact Or.inl h
      · obtain ⟨h1, h2⟩ := List.append_inj' hc rfl
        injection h2 with h2
        subst h1 h2
        exact Or.inr ⟨rfl, h⟩

/-- A string accepted by the STIX-ID matcher is nonempty. -/
theorem isStixId_ne_empty (s : String) (h : isStixId s = true) : s ≠ "" := by
  intro hs
  subst hs
  exact absurd h (by decide)

/-- A grammar string starts with a lowercase letter. -/
theorem stixIdGrammar_head (cs : List Char) (h : StixIdGrammar cs) :
    ∃ c rest, cs = c :: rest ∧ isLowerAlpha c = true := by
  obtain ⟨p, u, hcs, ⟨c, q, hp, hc, -, -⟩, -⟩ := h
  refine ⟨c, q ++ '-' :: '-' :: u, ?_, hc⟩
  rw [hcs, hp]
  simp

/-- A lowercase letter is not a hyphen. -/
theorem lowerAlpha_ne_hyphen (c : Char) (h : isLowerAlpha c = true) : c ≠ '-' := by
  intro hc
  subst hc
  exact absurd h (by decide)

/-- Splitting before the first double hyphen keeps a leading non-hyphen
character. -/
theorem beforeDoubleHyphen_cons_of_ne (c : Char) (rest : List Char) (h : c ≠ '-') :
    beforeDoubleHyphen (c :: rest) = c :: beforeDoubleHyphen rest := by
  cases rest with
  | nil => rfl
  | cons c2 r => simp [beforeDoubleHyphen, h]

/-- The type part extracted from a valid STIX id is nonempty. -/
theorem idTypePart_ne_empty (s : String) (h : isStixId s = true) :
    idTypePart s ≠ "" := by
  have hacc : StixIdAccepted s.data := (isStixIdList_iff_accepted s.data).mp h
  have hhead : ∃ c rest, s.data = c :: rest ∧ isLowerAlpha c = true := by
    rcases hacc with hg | ⟨cs, hcs, hg⟩
    · exact stixIdGrammar_head _ hg
    · obtain ⟨c, rest, hc, hlc⟩ := stixIdGrammar_head _ hg
      refine ⟨c, rest ++ ['\n'], ?_, hlc⟩
      rw [hcs, hc]
      simp
  obtain ⟨c, rest, hc, hlc⟩ := hhead
  intro heq
  have hdata := congrArg String.data heq
  rw [idTypePart] at hdata
  simp only [String.data] at hdata
  rw [hc, beforeDoubleHyphen_cons_of_ne c _ (lowerAlpha_ne_hyphen c hlc)] at hdata
  simp at hdata

/-- `STIXObject.validate` succeeds exactly when every schema rule holds:
id nonempty, type nonempty, id matches the STIX-ID grammar, the id's type
part equals the declared type, and the type is a recognized ATT&CK type. -/
theorem stix_node_valid_iff (n : STIXObject) :
    STIXObject.validate n = .ok () ↔
      (n.id ≠ "" ∧ n.type ≠ "" ∧ isStixId n.id = true ∧
        idTypePart n.id = n.type ∧ ATTACK_OBJECT_TYPES.contains n.type = true) := by
  unfold STIXObject.validate baseNodeValidate
  split_ifs with h1 h2 h3 h4 h5 <;> simp_all

/-- `STIXRelationship.validate` succeeds exactly when the type literal is
`relationship`, both refs match the STIX-ID grammar, the refs differ and
the relationship type is nonempty. -/
theorem stix_relationship_valid_iff (r : STIXRelationship) :
    STIXRelationship.validate r = .ok () ↔
      (r.type = "relationship" ∧ isStixId r.source_ref = true ∧
        isStixId r.target_ref = true ∧ r.source_ref ≠ r.target_ref ∧
        r.relationship_type ≠ "") := by
  unfold STIXRelationship.validate baseEdgeValidate
  constructor
  · intro h
    split_ifs at h
    simp_all
  · rintro ⟨h1, h2, h3, h4, h5⟩
    have hs := isStixId_ne_empty _ h2
    have ht := isStixId_ne_empty _ h3
    split_ifs <;> simp_all

/-- Claim C1 (amended): node validation is total over the embedded inputs
and succeeds exactly when every rule holds (nonempty id, nonempty type,
STIX-ID grammar, id-part/type agreement, recognized type); an invalid
node is signalled by a raised `ValidationError` carrying a single reason,
and when the id is empty that reason is the empty-id message — the first
violated rule in evaluation order — even if later rules are violated too. -/
theorem stixObject_validate_ok_iff_and_first_reason (n : STIXObject) :
    (STIXObject.validate n = .ok () ↔
      (n.id ≠ "" ∧ n.type ≠ "" ∧ isStixId n.id = true ∧
        idTypePart n.id = n.type ∧ ATTACK_OBJECT_TYPES.contains n.type = true)) ∧
    (n.id = "" → STIXObject.validate n = .error "Node ID cannot be empty") := by
  refine ⟨stix_node_valid_iff n, ?_⟩
  intro h
  simp [STIXObject.validate, baseNodeValidate, h]

/-- Witness for claim C1's theorem at a concrete node. -/
theorem stixObject_validate_first_reason_witness :
    STIXObject.validate { id := "", type := "zzz" } = .error "Node ID cannot be empty" :=
  (stixObject_validate_ok_iff_and_first_reason { id := "", type := "zzz" }).2 rfl

/-- Counterexample for claim C1 as stated: a node with an empty id and an
unknown type violates two rules at once, yet validation raises with only
the first reason, so the outcome does not carry one reason per violated
rule. -/
theorem stixObject_validate_not_all_reasons_cx :
    ({ id := "", type := "zzz" } : STIXObject).id = "" ∧
    ATTACK_OBJECT_TYPES.contains ({ id := "", type := "zzz" } : STIXObject).type = false ∧
    STIXObject.validate { id := "", type := "zzz" } = .error "Node ID cannot be empty" :=
  ⟨rfl, by decide, by decide⟩

/-- Claim C2 (code bug): with `fail_on_invalid = false` the accepted set
should be the maximal valid subset of the input, but the stub `ingest`
returns an empty object list and the fixed error text whatever the input
holds — here a schema-valid object exists and is still not accepted. -/
theorem ingest_stub_ignores_fail_on_invalid :
    STIXObject.validate { id := "malware--0a1b2c3d-0a1b-4c3d-8e9f-0a1b2c3d4e5f", type := "malware" } = .ok () ∧
    (ingestRun { source := "attack", data_path := { path := "/data/enterprise-attack.json" }, validate := true, fail_on_invalid := false } (fun _ => some "bundle")).objects = [] ∧
    (ingestRun { source := "attack", data_path := { path := "/data/enterprise-attack.json" }, validate := true, fail_on_invalid := false } (fun _ => some "bundle")).errors = ["Pipeline not yet implemented"] :=
  ⟨by decide, rfl, rfl⟩

/-- Claim C3: two pipeline runs with identical configuration and
identical input data agree on objects, errors and metadata; the embedded
`ingest` depends on nothing but its arguments, so equal inputs give equal
results. -/
theorem ingest_deterministic (config : IngestConfig) (fs1 fs2 : FileSystem)
    (h : fs1 = fs2) :
    (ingestRun config fs1).objects = (ingestRun config fs2).objects ∧
    (ingestRun config fs1).errors = (ingestRun config fs2).errors ∧
    (ingestRun config fs1).metadata = (ingestRun config fs2).metadata := by
  subst h
  exact ⟨rfl, rfl, rfl⟩

/-- Witness for claim C3's theorem at a concrete configuration and file
system. -/
theorem ingest_deterministic_witness :
    (ingestRun { source := "attack", data_path := { path := "/d.json" } }
        (fun _ => none)).objects =
      (ingestRun { source := "attack", data_path := { path := "/d.json" } }
        (fun _ => none)).objects ∧
    (ingestRun { source := "attack", data_path := { path := "/d.json" } }
        (fun _ => none)).errors =
      (ingestRun { source := "attack", data_path := { path := "/d.json" } }
        (fun _ => none)).errors ∧
    (ingestRun { source := "attack", data_path := { path := "/d.json" } }
        (fun _ => none)).metadata =
      (ingestRun { source := "attack", data_path := { path := "/d.json" } }
        (fun _ => none)).metadata :=
  ingest_deterministic _ _ _ rfl

/-- Claim C4 (amended): for a node whose id satisfies the STIX-ID
grammar, when the declared type equals the id's type part, validation
succeeds exactly when that type belongs to the recognized ATT&CK type
set; and for a nonempty declared type different from the id's type part,
validation fails with the type-mismatch diagnostic. -/
theorem stixObject_validate_type_consistency (n : STIXObject) (h : isStixId n.id = true) :
    ((idTypePart n.id = n.type) →
      (STIXObject.validate n = .ok () ↔ ATTACK_OBJECT_TYPES.contains n.type = true)) ∧
    (n.type ≠ "" → idTypePart n.id ≠ n.type →
      STIXObject.validate n = .error ("STIX ID type mismatch: ID has '" ++
        idTypePart n.id ++ "', but type field is '" ++ n.type ++ "'")) := by
  constructor
  · intro hpt
    rw [stix_node_valid_iff]
    have hid := isStixId_ne_empty _ h
    have hty : n.type ≠ "" := by
      rw [← hpt]
      exact idTypePart_ne_empty _ h
    constructor
    · rintro ⟨-, -, -, -, h5⟩
      exact h5
    · intro h5
      exact ⟨hid, hty, h, hpt, h5⟩
  · intro hty hne
    have hid := isStixId_ne_empty _ h
    simp [STIXObject.validate, baseNodeValidate, hid, hty, h, hne]

/-- Witness for claim C4's theorem at a concrete accepted node. -/
theorem stixObject_validate_type_consistency_witness :
    STIXObject.validate { id := "malware--11111111-1111-1111-1111-111111111111", type := "malware" } = .ok () :=
  ((stixObject_validate_type_consistency _ (by decide)).1 (by decide)).mpr (by decide)

/-- Counterexample for claim C4 as stated: `zz--...` is a valid STIX id
and the declared type `zz` equals its type part, yet the node is rejected
(unknown type); and with a valid id but an empty declared type the node
is rejected with the empty-type message, not a type-mismatch diagnostic. -/
theorem stixObject_validate_unknown_type_cx :
    isStixId "zz--11111111-1111-1111-1111-111111111111" = true ∧
    idTypePart "zz--11111111-1111-1111-1111-111111111111" = "zz" ∧
    STIXObject.validate { id := "zz--11111111-1111-1111-1111-111111111111", type := "zz" } =
      .error ("Unknown STIX type: zz. Known types: " ++ knownTypesJoined) ∧
    STIXObject.validate { id := "malware--11111111-1111-1111-1111-111111111111", type := "" } = .error "Node type cannot be empty" :=
  ⟨by decide, by decide, by decide, by decide⟩

/-- Claim C5 (amended): the validator recognizes a string as a STIX id
exactly when — directly, or after discarding the single trailing newline
that Python's end anchor tolerates — it is a lowercase-alnum-hyphen head
part beginning with a letter and at least two characters long, the
literal double hyphen, and a canonical 8-4-4-4-12 lowercase-hex UUID;
no version-4 requirement is placed on the UUID. -/
theorem stixId_grammar_characterization (s : String) :
    isStixId s = true ↔ StixIdAccepted s.data :=
  isStixIdList_iff_accepted s.data

/-- Witness for claim C5's theorem at a concrete accepted id carrying the
trailing newline that Python's end anchor tolerates. -/
theorem stixId_grammar_characterization_witness :
    StixIdAccepted "malware--0a1b2c3d-0a1b-4c3d-8e9f-0a1b2c3d4e5f\n".data :=
  (stixId_grammar_characterization _).mp (by decide)

/-- Counterexample for claim C5 as stated: an id whose UUID version
nibble is the hex digit `1`, not `4`, is still accepted as a STIX id. -/
theorem stixId_accepts_non_v4_uuid_cx :
    isStixId "malware--11111111-1111-1111-1111-111111111111" = true ∧
    "malware--11111111-1111-1111-1111-111111111111".data.getD 23 '?' = '1' ∧
    ('1' : Char) ≠ '4' :=
  ⟨by decide, by decide, by decide⟩

/-- Claim C6: every edge whose `source_ref` equals its `target_ref` is
rejected by `BaseEdge.validate` — a `ValidationError` is raised whatever
the other fields hold (for empty refs the raised reason is the emptiness
one, for nonempty equal refs the self-loop one). -/
theorem baseEdge_validate_rejects_self_loop (e : BaseEdge)
    (h : e.source_ref = e.target_ref) :
    ∃ m, BaseEdge.validate e = .error m := by
  unfold BaseEdge.validate baseEdgeValidate
  split_ifs <;> simp_all

/-- Witness for claim C6's theorem at an edge with two empty refs. -/
theorem baseEdge_validate_rejects_self_loop_witness :
    ∃ m, BaseEdge.validate { source_ref := "", target_ref := "", relationship_type := "uses" } = .error m :=
  baseEdge_validate_rejects_self_loop _ rfl

/-- Claim C7: a STIX relationship validates exactly when its type literal
equals `relationship`, each ref independently satisfies the STIX-ID
grammar, the refs are distinct, and the relationship type is nonempty; no
condition involves the existence of the referenced nodes. -/
theorem stixRelationship_validate_ok_iff (r : STIXRelationship) :
    STIXRelationship.validate r = .ok () ↔
      (r.type = "relationship" ∧ isStixId r.source_ref = true ∧
        isStixId r.target_ref = true ∧ r.source_ref ≠ r.target_ref ∧
        r.relationship_type ≠ "") :=
  stix_relationship_valid_iff r

/-- Witness for claim C7's theorem at a concrete accepted relationship. -/
theorem stixRelationship_validate_ok_iff_witness :
    STIXRelationship.validate
      { source_ref := "malware--aaaaaaaa-aaaa-aaaa-aaaa-aaaaaaaaaaaa",
        target_ref := "tool--bbbbbbbb-bbbb-bbbb-bbbb-bbbbbbbbbbbb",
        relationship_type := "uses" } = .ok () :=
  (stixRelationship_validate_ok_iff _).mpr (by decide)

/-- Claim C8 (code bug): `get_adapter` rejects an unknown source with a
`ValueError` naming the available sources, but the pipeline entrypoint
never consults the registry — a run with an unknown source returns the
stub result instead of failing with the configuration error before any
data is read. -/
theorem get_adapter_unknown_source_and_ingest_stub :
    get_adapter "github" = .error "Unknown source: github. Available: attack, d3fend" ∧
    ingestRun { source := "github", data_path := { path := "/data/x.json" } }
        (fun _ => none) =
      { objects := [], errors := ["Pipeline not yet implemented"],
        metadata := [("source", "github"), ("path", "/data/x.json")] } :=
  ⟨by decide, by decide⟩

/-- Claim C9: for every configuration and every file contents, `ingest`
returns the fixed stub result — no objects, exactly the one error
`Pipeline not yet implemented`, metadata recording the given source and
path — hence `is_valid` is always false and `object_count` always zero. -/
theorem ingest_always_stub_result (config : IngestConfig) (fs : FileSystem) :
    ingestRun config fs =
      { objects := [], errors := ["Pipeline not yet implemented"],
        metadata := [("source", config.source), ("path", config.data_path.toStr)] } ∧
    (ingestRun config fs).is_valid = false ∧
    (ingestRun config fs).object_count = 0 :=
  ⟨rfl, rfl, rfl⟩

/-- Claim C10: for a raw dictionary with type `relationship` and an `id`
key, when the refs are distinct valid STIX ids and the relationship type
is nonempty, `validate_stix_object` returns the relationship carrying the
given id value unchanged, whatever that value is — the relationship's own
id is never checked against the STIX-ID grammar. -/
theorem validate_stix_object_relationship_id_passthrough (obj : RawObject)
    (v : Option String)
    (ht : obj.type? = some "relationship") (hid : obj.id? = some v)
    (hs : isStixId (obj.source_ref?.getD "") = true)
    (htg : isStixId (obj.target_ref?.getD "") = true)
    (hne : obj.source_ref?.getD "" ≠ obj.target_ref?.getD "")
    (hrt : obj.relationship_type?.getD "" ≠ "") :
    validate_stix_object obj =
      .ok (.inr { source_ref := obj.source_ref?.getD "",
                  target_ref := obj.target_ref?.getD "",
                  relationship_type := obj.relationship_type?.getD "",
                  id := v }) := by
  have hv : STIXRelationship.validate
      { source_ref := obj.source_ref?.getD "", target_ref := obj.target_ref?.getD "",
        relationship_type := obj.relationship_type?.getD "", id := v } = .ok () :=
    (stix_relationship_valid_iff _).mpr ⟨rfl, hs, htg, hne, hrt⟩
  unfold validate_stix_object
  rw [ht, hid]
  simp [hv]

/-- Witness for claim C10's theorem at a raw relationship whose `id` key
holds Python `None`. -/
theorem validate_stix_object_relationship_id_passthrough_witness :
    validate_stix_object
      { type? := some "relationship", id? := some none,
        source_ref? := some "malware--aaaaaaaa-aaaa-aaaa-aaaa-aaaaaaaaaaaa",
        target_ref? := some "tool--bbbbbbbb-bbbb-bbbb-bbbb-bbbbbbbbbbbb",
        relationship_type? := some "uses" } =
      .ok (.inr { source_ref := "malware--aaaaaaaa-aaaa-aaaa-aaaa-aaaaaaaaaaaa",
                  target_ref := "tool--bbbbbbbb-bbbb-bbbb-bbbb-bbbbbbbbbbbb",
                  relationship_type := "uses", id := none }) :=
  validate_stix_object_relationship_id_passthrough _ none rfl rfl (by decide) (by decide)
    (by decide) (by decide)
